import Mathlib

/-!
Shallow embedding of the mdns-responder service core (src/src/config.rs and
src/src/mdns_service.rs) together with proofs about the claims of the
specification.  Rust `String` values are modelled by Lean `String` (both are
sequences of Unicode scalar values); Rust `u16` is modelled by `Nat` with an
explicit `< 65536` bound where it matters; fallible Rust functions returning
`Result<T, MdnsError>` are modelled by `Except MdnsError T`.
-/

namespace MdnsResponder

/-! Section: Rust string primitives -/

/-- Rust `str::len`: the length of the string in UTF-8 bytes (not characters). -/
def rustLen (s : String) : Nat := s.utf8ByteSize

/-- Rust `str::ends_with(pat)` for a string pattern: `pat` is a suffix of `s`.
For valid UTF-8, byte-suffix and character-suffix agree. -/
def rustEndsWith (s pat : String) : Bool := decide (pat.data <:+ s.data)

/-- Rust `str::starts_with('c')` for a char pattern: the first character is `c`. -/
def rustStartsWithChar (s : String) (c : Char) : Bool := s.data.head? = some c

/-- Rust `str::ends_with('c')` for a char pattern: the last character is `c`. -/
def rustEndsWithChar (s : String) (c : Char) : Bool := s.data.getLast? = some c

/-- Rust `str::contains(pat)` for a string pattern: `pat` occurs as a
contiguous substring of `s`. -/
def rustContains (s pat : String) : Bool := decide (pat.data <:+: s.data)

/-- Rust `char::is_alphanumeric`: true when the character has the Unicode
`Alphabetic` property or lies in one of the numeric general categories
`Nd`, `Nl`, `No`.  The predicate is tabulated exactly over the Basic Latin and
Latin-1 Supplement blocks (U+0000..U+00FF): ASCII digits and letters, the
ordinal indicators U+00AA/U+00BA, micro sign U+00B5, superscripts
U+00B2/U+00B3/U+00B9, vulgar fractions U+00BC..U+00BE, and the Latin-1 letters
U+00C0..U+00FF minus the multiplication/division signs U+00D7/U+00F7.
Codepoints at or above U+0100 are mapped to `false`; every concrete string this
development evaluates the predicate on stays inside the tabulated range. -/
def rustIsAlphanumeric (c : Char) : Bool :=
  let n := c.toNat
  (0x30 ≤ n && n ≤ 0x39) || (0x41 ≤ n && n ≤ 0x5A) || (0x61 ≤ n && n ≤ 0x7A) ||
  n = 0xAA || n = 0xB2 || n = 0xB3 || n = 0xB5 || n = 0xB9 || n = 0xBA ||
  (0xBC ≤ n && n ≤ 0xBE) || (0xC0 ≤ n && n ≤ 0xD6) || (0xD8 ≤ n && n ≤ 0xF6) ||
  (0xF8 ≤ n && n ≤ 0xFF)

/-! Section: src/error.rs -/

/-- The error enumeration of `src/src/error.rs` (`MdnsError`).  Error payloads
that are foreign error values in Rust (`io::Error`, `serde_json::Error`,
windows errors) are modelled by their display strings. -/
inductive MdnsError where
  | ConfigValidation (msg : String)
  | Io (msg : String)
  | Json (msg : String)
  | Service (msg : String)
  | Windows (msg : String)
  | Thread (msg : String)
  | ServiceDispatcher (msg : String)
  | IpConfig (msg : String)
  deriving DecidableEq, Repr

/-- Model of `pub type Result<T> = std::result::Result<T, MdnsError>` from src/error.rs. -/
abbrev MResult (α : Type) : Type := Except MdnsError α

/-! Section: src/config.rs: data model -/

/-- Structure `ShareConfig` from src/src/config.rs. -/
structure ShareConfig where
  name : String
  path : String
  comment : String
  deriving DecidableEq, Repr

/-- Structure `ServiceConfig` from src/src/config.rs.  `port` is a Rust `u16`, modelled
by `Nat`; where the bound matters a `< 65536` hypothesis is carried. -/
structure ServiceConfig where
  service_name : String
  instance_name : String
  port : Nat
  hostname : String
  workgroup : String
  description : String
  shares : List ShareConfig
  bind_address : Option String
  deriving DecidableEq, Repr

/-- The `impl Default for ServiceConfig` (src/src/config.rs lines 26-43). -/
def ServiceConfig.default : ServiceConfig :=
  { service_name := "_smb._tcp.local."
    instance_name := "Windows-Share"
    port := 445
    hostname := "windows-pc.local"
    workgroup := "WORKGROUP"
    description := "Windows SMB Share via mDNS"
    shares := [{ name := "Public"
                 path := "C:\\Users\\Public\\Documents"
                 comment := "Public shared folder" }]
    bind_address := none }

/-- The `for (i, share) in self.shares.iter().enumerate()` loop at the end of
`ServiceConfig::validate` (src/src/config.rs lines 124-137), started at
index 0. -/
def checkShares : Nat → List ShareConfig → MResult Unit
  | _, [] => .ok ()
  | i, share :: rest =>
    if share.name = "" then
      .error (.ConfigValidation ("share[" ++ Nat.repr i ++ "]: name cannot be empty"))
    else if share.path = "" then
      .error (.ConfigValidation ("share[" ++ Nat.repr i ++ "]: path cannot be empty"))
    else
      checkShares (i + 1) rest

/-- Function `ServiceConfig::validate` (src/src/config.rs lines 69-140).  The chain of
early returns is rendered as an if-else chain in source order. -/
def ServiceConfig.validate (c : ServiceConfig) : MResult Unit :=
  if ¬ rustEndsWith c.service_name ".local." then
    .error (.ConfigValidation "service_name must end with '.local.'")
  else if c.instance_name = "" then
    .error (.ConfigValidation "instance_name cannot be empty")
  else if rustLen c.instance_name > 63 then
    .error (.ConfigValidation "instance_name exceeds 63 characters")
  else if c.port = 0 then
    .error (.ConfigValidation "port cannot be 0")
  else if c.hostname = "" then
    .error (.ConfigValidation "hostname cannot be empty")
  else if ¬ (c.hostname.data.all (fun ch => rustIsAlphanumeric ch || ch = '-')) ∨
          rustStartsWithChar c.hostname '-' ∨ rustEndsWithChar c.hostname '-' then
    .error (.ConfigValidation "hostname must contain only alphanumeric characters and hyphens")
  else if c.shares = [] then
    .error (.ConfigValidation "at least one share must be configured")
  else
    checkShares 0 c.shares

/-! Section: src/config.rs: persistence (serde_json)

The persisted configuration is JSON text.  We model it at the level of JSON
values: `serde_json::to_string_pretty` followed by `serde_json::from_str` is
the identity on JSON values (a guarantee of the external library, outside this
repository), so `save_to_file`/`from_file` are modelled as producing and
consuming a JSON value.  Numbers only ever arise from the `u16` port field, so
they are modelled by `Nat`. -/

/-- JSON values as far as the configuration schema needs them. -/
inductive Jval where
  | str (s : String)
  | num (n : Nat)
  | arr (elems : List Jval)
  | obj (entries : List (String × Jval))
  | null

/-- serde deserialization of a `String` field value. -/
def asString : Jval → Except String String
  | .str s => .ok s
  | _ => .error "invalid type: expected a string"

/-- serde deserialization of a `u16` field value: integers outside
`0..=65535` are rejected. -/
def asU16 : Jval → Except String Nat
  | .num n => if n ≤ 65535 then .ok n else .error "invalid value: integer out of u16 range"
  | _ => .error "invalid type: expected u16"

/-- serde deserialization of an `Option<String>` field value: `null` maps to
`None`, a string to `Some`. -/
def asOptString : Jval → Except String (Option String)
  | .null => .ok none
  | .str s => .ok (some s)
  | _ => .error "invalid type: expected a string or null"

/-- Accumulator for the derived `Deserialize` visitor of `ShareConfig`:
one optional slot per field. -/
structure ShareSlots where
  name : Option String := none
  path : Option String := none
  comment : Option String := none

/-- The map-visiting phase of serde's derived `Deserialize` for `ShareConfig`:
entries are consumed in order; a known key fills its slot (a second occurrence
is a duplicate-field error); an unknown key is ignored (the struct has no
`deny_unknown_fields` attribute). -/
def readShareEntries : List (String × Jval) → ShareSlots → Except String ShareSlots
  | [], st => .ok st
  | (k, v) :: rest, st =>
    if k = "name" then
      match st.name with
      | some _ => .error "duplicate field name"
      | none =>
        match asString v with
        | .error e => .error e
        | .ok s => readShareEntries rest { st with name := some s }
    else if k = "path" then
      match st.path with
      | some _ => .error "duplicate field path"
      | none =>
        match asString v with
        | .error e => .error e
        | .ok s => readShareEntries rest { st with path := some s }
    else if k = "comment" then
      match st.comment with
      | some _ => .error "duplicate field comment"
      | none =>
        match asString v with
        | .error e => .error e
        | .ok s => readShareEntries rest { st with comment := some s }
    else
      readShareEntries rest st

/-- Derived `Deserialize` for `ShareConfig`: visit the object's entries, then
require every (non-`Option`) field to have been seen, in declaration order. -/
def shareFromJson : Jval → Except String ShareConfig
  | .obj entries =>
    (match readShareEntries entries {} with
     | .error e => .error e
     | .ok st =>
       match st.name with
       | none => .error "missing field name"
       | some name =>
         match st.path with
         | none => .error "missing field path"
         | some path =>
           match st.comment with
           | none => .error "missing field comment"
           | some comment => .ok { name := name, path := path, comment := comment })
  | _ => .error "invalid type: expected struct ShareConfig"

/-- serde deserialization of `Vec<ShareConfig>`: elementwise, first error
wins. -/
def sharesFromJsonList : List Jval → Except String (List ShareConfig)
  | [] => .ok []
  | j :: rest =>
    match shareFromJson j with
    | .error e => .error e
    | .ok s =>
      match sharesFromJsonList rest with
      | .error e => .error e
      | .ok l => .ok (s :: l)

/-- serde deserialization of the `shares: Vec<ShareConfig>` field value. -/
def asShares : Jval → Except String (List ShareConfig)
  | .arr l => sharesFromJsonList l
  | _ => .error "invalid type: expected an array"

/-- Accumulator for the derived `Deserialize` visitor of `ServiceConfig`. -/
structure ConfigSlots where
  service_name : Option String := none
  instance_name : Option String := none
  port : Option Nat := none
  hostname : Option String := none
  workgroup : Option String := none
  description : Option String := none
  shares : Option (List ShareConfig) := none
  bind_address : Option (Option String) := none

/-- The map-visiting phase of serde's derived `Deserialize` for
`ServiceConfig` (same discipline as `readShareEntries`; unknown keys are
ignored because the struct carries no `deny_unknown_fields` attribute). -/
def readConfigEntries : List (String × Jval) → ConfigSlots → Except String ConfigSlots
  | [], st => .ok st
  | (k, v) :: rest, st =>
    if k = "service_name" then
      match st.service_name with
      | some _ => .error "duplicate field service_name"
      | none =>
        match asString v with
        | .error e => .error e
        | .ok s => readConfigEntries rest { st with service_name := some s }
    else if k = "instance_name" then
      match st.instance_name with
      | some _ => .error "duplicate field instance_name"
      | none =>
        match asString v with
        | .error e => .error e
        | .ok s => readConfigEntries rest { st with instance_name := some s }
    else if k = "port" then
      match st.port with
      | some _ => .error "duplicate field port"
      | none =>
        match asU16 v with
        | .error e => .error e
        | .ok n => readConfigEntries rest { st with port := some n }
    else if k = "hostname" then
      match st.hostname with
      | some _ => .error "duplicate field hostname"
      | none =>
        match asString v with
        | .error e => .error e
        | .ok s => readConfigEntries rest { st with hostname := some s }
    else if k = "workgroup" then
      match st.workgroup with
      | some _ => .error "duplicate field workgroup"
      | none =>
        match asString v with
        | .error e => .error e
        | .ok s => readConfigEntries rest { st with workgroup := some s }
    else if k = "description" then
      match st.description with
      | some _ => .error "duplicate field description"
      | none =>
        match asString v with
        | .error e => .error e
        | .ok s => readConfigEntries rest { st with description := some s }
    else if k = "shares" then
      match st.shares with
      | some _ => .error "duplicate field shares"
      | none =>
        match asShares v with
        | .error e => .error e
        | .ok l => readConfigEntries rest { st with shares := some l }
    else if k = "bind_address" then
      match st.bind_address with
      | some _ => .error "duplicate field bind_address"
      | none =>
        match asOptString v with
        | .error e => .error e
        | .ok b => readConfigEntries rest { st with bind_address := some b }
    else
      readConfigEntries rest st

/-- The finishing phase of serde's derived `Deserialize` for `ServiceConfig`:
every non-`Option` field must have been seen (checked in declaration order);
the absent `Option<String>` field `bind_address` defaults to `None`. -/
def finalizeConfig (st : ConfigSlots) : Except String ServiceConfig :=
  match st.service_name with
  | none => .error "missing field service_name"
  | some service_name =>
    match st.instance_name with
    | none => .error "missing field instance_name"
    | some instance_name =>
      match st.port with
      | none => .error "missing field port"
      | some port =>
        match st.hostname with
        | none => .error "missing field hostname"
        | some hostname =>
          match st.workgroup with
          | none => .error "missing field workgroup"
          | some workgroup =>
            match st.description with
            | none => .error "missing field description"
            | some description =>
              match st.shares with
              | none => .error "missing field shares"
              | some shares =>
                .ok { service_name := service_name, instance_name := instance_name
                      port := port, hostname := hostname, workgroup := workgroup
                      description := description, shares := shares
                      bind_address := st.bind_address.getD none }

/-- Derived `Deserialize` for `ServiceConfig` (the whole
`serde_json::from_str` step at the JSON-value level). -/
def deserializeConfig : Jval → Except String ServiceConfig
  | .obj entries =>
    (match readConfigEntries entries {} with
     | .error e => .error e
     | .ok st => finalizeConfig st)
  | _ => .error "invalid type: expected struct ServiceConfig"

/-- Derived `Serialize` for `ShareConfig`. -/
def ShareConfig.toJson (s : ShareConfig) : Jval :=
  .obj [("name", .str s.name), ("path", .str s.path), ("comment", .str s.comment)]

/-- Derived `Serialize` for `ServiceConfig`: fields in declaration order; the
`bind_address` entry is omitted when `None` per
`#[serde(skip_serializing_if = "Option::is_none")]`. -/
def ServiceConfig.toJson (c : ServiceConfig) : Jval :=
  .obj ([("service_name", .str c.service_name), ("instance_name", .str c.instance_name),
         ("port", .num c.port), ("hostname", .str c.hostname),
         ("workgroup", .str c.workgroup), ("description", .str c.description),
         ("shares", .arr (c.shares.map ShareConfig.toJson))] ++
        (match c.bind_address with
         | some b => [("bind_address", Jval.str b)]
         | none => []))

/-- Function `ServiceConfig::from_file` (src/src/config.rs lines 46-51) at the
JSON-value level: deserialize (a `serde_json::Error` becomes `MdnsError::Json`
via `#[from]`), then validate, then return the config.  The `fs::read_to_string`
I/O step is outside the model; its failure would be an `MdnsError::Io` before
any of this runs. -/
def from_file (j : Jval) : MResult ServiceConfig :=
  match deserializeConfig j with
  | .error e => .error (.Json e)
  | .ok config =>
    match config.validate with
    | .error e => .error e
    | .ok _ => .ok config

/-- Function `ServiceConfig::save_to_file` (src/src/config.rs lines 53-58) at the
JSON-value level: validate first, then produce the serialized content that is
written to the file. -/
def save_to_file (c : ServiceConfig) : MResult Jval :=
  match c.validate with
  | .error e => .error e
  | .ok _ => .ok c.toJson

/-! Section: src/mdns_service.rs: address selection -/

/-- Model of `std::net::IpAddr` as far as `get_local_ip` inspects it: an IPv4 address
carries its four octets (each `< 256` in reality; the selection logic only
compares them to constants); the code never reads the payload of a V6 address,
so it is not modelled. -/
inductive IpAddrM where
  | v4 (o0 o1 o2 o3 : Nat)
  | v6

/-- One entry of the `ipconfig::get_adapters()` enumeration, as far as
`get_local_ip` reads it: `description()` and `ip_addresses()`. -/
structure Adapter where
  description : String
  ip_addresses : List IpAddrM

/-- The virtual/VPN/hypervisor/Bluetooth marker test of `get_local_ip`
(src/src/mdns_service.rs lines 24-28). -/
def containsMarker (desc : String) : Bool :=
  rustContains desc "Virtual" || rustContains desc "VPN" ||
  rustContains desc "Hyper-V" || rustContains desc "Bluetooth"

/-- The private-range test of `get_local_ip` (src/src/mdns_service.rs lines
42-47): `match octets[0] { 10 => true, 172 if 16..=31, 192 if o1 == 168 }`. -/
def isPrivateV4 (o0 o1 : Nat) : Bool :=
  if o0 = 10 then true
  else if o0 = 172 then decide (16 ≤ o1) && decide (o1 ≤ 31)
  else if o0 = 192 then o1 = 168
  else false

/-- Rendering of `std::fmt::Display` for `Ipv4Addr`: dotted decimal. -/
def ipv4String (o0 o1 o2 o3 : Nat) : String :=
  Nat.repr o0 ++ "." ++ Nat.repr o1 ++ "." ++ Nat.repr o2 ++ "." ++ Nat.repr o3

/-- The inner `for ip_addr in adapter.ip_addresses()` loop of `get_local_ip`
(src/src/mdns_service.rs lines 38-54): first IPv4 address in a private range,
rendered as a string. -/
def firstPrivateIpv4 : List IpAddrM → Option String
  | [] => none
  | .v4 o0 o1 o2 o3 :: rest =>
    if isPrivateV4 o0 o1 then some (ipv4String o0 o1 o2 o3)
    else firstPrivateIpv4 rest
  | .v6 :: rest => firstPrivateIpv4 rest

/-- The outer `for adapter in adapters` loop of `get_local_ip`
(src/src/mdns_service.rs lines 20-55): skip marker-matching adapters, skip
adapters with no addresses, return the first private IPv4 of the first
remaining adapter that has one. -/
def scanAdapters : List Adapter → Option String
  | [] => none
  | a :: rest =>
    if containsMarker a.description then scanAdapters rest
    else if a.ip_addresses.isEmpty then scanAdapters rest
    else
      match firstPrivateIpv4 a.ip_addresses with
      | some ip => some ip
      | none => scanAdapters rest

/-- Function `get_local_ip` (src/src/mdns_service.rs lines 14-64).  The
`ipconfig::get_adapters()` call is modelled by its outcome `adaptersResult`
(an enumeration failure propagates via `?`), and the UDP-socket fallback of
lines 57-63 — pure I/O — by its outcome `socketFallback`. -/
def get_local_ip (adaptersResult : MResult (List Adapter))
    (socketFallback : MResult String) : MResult String :=
  match adaptersResult with
  | .error e => .error e
  | .ok adapters =>
    match scanAdapters adapters with
    | some ip => .ok ip
    | none => socketFallback

/-! Section: src/mdns_service.rs: the controller `run` up to registration -/

/-- The config-resolution step of `run` (src/src/mdns_service.rs lines
72-83): use the override when given, otherwise the result of
`ServiceConfig::from_file` (abstracted as `loadResult`), substituting
`ServiceConfig::default()` when loading failed (`or_else`). -/
def resolveConfig (config_override : Option ServiceConfig)
    (loadResult : MResult ServiceConfig) : MResult ServiceConfig :=
  match config_override with
  | some config => .ok config
  | none =>
    match loadResult with
    | .ok c => .ok c
    | .error _ => .ok ServiceConfig.default

/-- The address-resolution step of `run` (src/src/mdns_service.rs lines
87-94): a configured `bind_address` is used verbatim, otherwise
`get_local_ip` runs. -/
def resolveBindAddress (bind_address : Option String)
    (adaptersResult : MResult (List Adapter)) (socketFallback : MResult String) :
    MResult String :=
  match bind_address with
  | some bind_addr => .ok bind_addr
  | none => get_local_ip adaptersResult socketFallback

/-- The hostname-normalization step of `run` (src/src/mdns_service.rs lines
117-124). -/
def hostname_fqdn (hostname : String) : String :=
  if rustEndsWith hostname ".local." then hostname
  else if rustEndsWith hostname ".local" then hostname ++ "."
  else hostname ++ ".local."

/-- Function `run` (src/src/mdns_service.rs lines 66-143) from entry up to the point
where `daemon.register(service_info)` is invoked: resolves the configuration,
resolves the advertised address, normalizes the hostname, and hands the triple
to registration.  Daemon creation and the registration call itself are
external-collaborator I/O; everything the code computes before them is here. -/
def runToRegistration (config_override : Option ServiceConfig)
    (loadResult : MResult ServiceConfig) (adaptersResult : MResult (List Adapter))
    (socketFallback : MResult String) : MResult (ServiceConfig × String × String) :=
  match resolveConfig config_override loadResult with
  | .error e => .error e
  | .ok config =>
    match resolveBindAddress config.bind_address adaptersResult socketFallback with
    | .error e => .error e
    | .ok ip_addr => .ok (config, ip_addr, hostname_fqdn config.hostname)

/-! Section: src/mdns_service.rs: bounded graceful shutdown

`graceful_shutdown` (src/src/mdns_service.rs lines 161-198) spawns a worker
that calls `daemon.shutdown()` and writes the outcome into a mutex-guarded
slot, then polls at 100ms intervals.  Each iteration of the poll loop is
modelled by the observation it makes: whether the worker thread has finished,
the slot's contents, and whether `start.elapsed() > timeout` (the 5-second
bound).  A run of the loop is modelled over the finite trace of observations
it gets to make; `shutdownLoop` returns `some r` when the loop exits with `r`
within the trace and `none` when the trace is exhausted first. -/

/-- One poll-loop observation of `graceful_shutdown`. -/
structure PollObs where
  finished : Bool
  slot : Option (Except String Unit)
  timedOut : Bool

/-- The `if shutdown_thread.is_finished() { ... }` block of one loop
iteration (src/src/mdns_service.rs lines 177-186): both a successful and a
failed collaborator shutdown make the function return `Ok(())` (the failure is
logged, not propagated); a finished thread with an unwritten slot falls
through. -/
def pollOnce (o : PollObs) : Option (MResult Unit)  :=
  if o.finished then
    match o.slot with
    | some (.ok _) => some (.ok ())
    | some (.error _) => some (.ok ())
    | none => none
  else none

/-- The poll loop of `graceful_shutdown` (src/src/mdns_service.rs lines
176-197) over a trace of observations: check the worker, then the timeout
(`start.elapsed() > timeout` returns `Ok(())`), then sleep and repeat. -/
def shutdownLoop : List PollObs → Option (MResult Unit)
  | [] => none
  | o :: rest =>
    match pollOnce o with
    | some r => some r
    | none => if o.timedOut then some (.ok ()) else shutdownLoop rest

/-! Section: Specification-side definitions

These follow the wording of the specification (for refinement-style claims);
they are compared against the definitions above, which follow the source. -/

/-- Spec §4.2: an adapter survives the skip phase when its description carries
no virtual/VPN/hypervisor/Bluetooth marker and it reports at least one bound
address. -/
def keepAdapter (a : Adapter) : Bool :=
  !containsMarker a.description && !a.ip_addresses.isEmpty

/-- Spec §4.2 selection, as the claim words it: over the remaining adapters in
enumeration order, the first private IPv4 wins. -/
def specSelect (adapters : List Adapter) : Option String :=
  (adapters.filter keepAdapter).findSome? (fun a => firstPrivateIpv4 a.ip_addresses)

/-- Claim C2's wording of validation rule 5: the hostname matches the ASCII
regex `[A-Za-z0-9-]+` and does not start or end with `-`. -/
def claimedAsciiWordChar (c : Char) : Bool :=
  ('A' ≤ c && c ≤ 'Z') || ('a' ≤ c && c ≤ 'z') || ('0' ≤ c && c ≤ '9') || c = '-'

/-- Claim C2's hostname rule: non-empty ASCII `[A-Za-z0-9-]+`, not
hyphen-bounded. -/
def claimedHostnameRule (s : String) : Bool :=
  !s.data.isEmpty && s.data.all claimedAsciiWordChar &&
  !rustStartsWithChar s '-' && !rustEndsWithChar s '-'

/-- Claim C2's instance-name rule: non-empty and at most 63 *characters*. -/
def claimedInstanceNameRule (s : String) : Bool :=
  !s.data.isEmpty && decide (s.data.length ≤ 63)

/-! Section: Theorems -/

/-- Helper: when one poll-loop iteration exits through the worker-finished
branch, it exits with `Ok(())` (both the successful and the failed
collaborator shutdown yield success; the failure is only logged). -/
theorem pollOnce_some_ok (o : PollObs) (r : MResult Unit) (h : pollOnce o = some r) :
    r = .ok () := by
  unfold pollOnce at h
  by_cases hf : o.finished
  · simp only [hf, if_true] at h
    rcases hs : o.slot with _ | res
    · rw [hs] at h; simp at h
    · rw [hs] at h
      rcases res with u | e <;> exact (Option.some.inj h).symm
  · simp [hf] at h

/-- Helper: when one poll-loop iteration does not exit through the
worker-finished branch, either the worker had not finished or the result slot
was not yet written. -/
theorem pollOnce_none_cond (o : PollObs) (ho : pollOnce o = none) :
    (o.finished && o.slot.isSome) = false := by
  unfold pollOnce at ho
  by_cases hf : o.finished
  · simp only [hf, if_true] at ho
    rcases hs : o.slot with _ | res
    · simp [hs]
    · rw [hs] at ho; rcases res with u | e <;> simp at ho
  · simp [hf]

/-- Helper: each run of the shutdown poll loop that exits does so with
`Ok(())`. -/
theorem shutdownLoop_ok_of_eq_some :
    ∀ (obs : List PollObs) (r : MResult Unit), shutdownLoop obs = some r → r = .ok () := by
  intro obs
  induction obs with
  | nil => intro r h; simp [shutdownLoop] at h
  | cons o rest ih =>
    intro r h
    simp only [shutdownLoop] at h
    rcases ho : pollOnce o with _ | r'
    · rw [ho] at h
      simp only at h
      by_cases ht : o.timedOut
      · simp only [ht, if_true] at h
        exact (Option.some.inj h).symm
      · simp only [ht, if_false] at h
        exact ih r h
    · rw [ho] at h
      simp only at h
      rw [pollOnce_some_ok o r' ho] at h
      exact (Option.some.inj h).symm

/-- C5.  Once a termination event has been observed, the graceful-shutdown
phase always returns success: (a) every exit of the poll loop yields `Ok(())`,
whether the collaborator's shutdown finished with `Ok`, finished with `Err`
(logged, not propagated), or the 5-second bound elapsed; and (b) on any poll
trace containing an iteration where the worker has finished with the result
slot written, or where the bound has elapsed, the loop does exit (with
success) rather than waiting indefinitely. -/
theorem c5_graceful_shutdown_always_ok :
    (∀ (obs : List PollObs) (r : MResult Unit), shutdownLoop obs = some r → r = .ok ()) ∧
    (∀ obs : List PollObs,
      obs.any (fun o => (o.finished && o.slot.isSome) || o.timedOut) = true →
      shutdownLoop obs = some (.ok ())) := by
  constructor
  · exact shutdownLoop_ok_of_eq_some
  · intro obs
    induction obs with
    | nil => intro h; simp at h
    | cons o rest ih =>
      intro h
      simp only [List.any_cons, Bool.or_eq_true] at h
      simp only [shutdownLoop]
      rcases ho : pollOnce o with _ | r'
      · simp only
        by_cases ht : o.timedOut
        · simp [ht]
        · simp only [ht, if_false]
          apply ih
          have hc := pollOnce_none_cond o ho
          have ht' : o.timedOut = false := by
            cases hb : o.timedOut
            · rfl
            · exact absurd hb ht
          rcases h with h | h
          · rcases h with h | h
            · rw [hc] at h; exact absurd h (by simp)
            · rw [ht'] at h; exact absurd h (by simp)
          · exact h
      · simp only
        rw [pollOnce_some_ok o r' ho]

/-- C5 witness: a trace whose single observation is an elapsed bound (the
collaborator's shutdown never completed) makes the loop exit with success. -/
theorem c5_witness :
    shutdownLoop [{ finished := false, slot := none, timedOut := true }] = some (.ok ()) :=
  c5_graceful_shutdown_always_ok.2
    [{ finished := false, slot := none, timedOut := true }] (by rfl)

/-- Helper: the source's adapter scan equals the spec's filter-then-first-match
description. -/
theorem scanAdapters_eq_specSelect (l : List Adapter) : scanAdapters l = specSelect l := by
  induction l with
  | nil => simp [scanAdapters, specSelect]
  | cons a rest ih =>
    by_cases hm : containsMarker a.description
    · have h1 : scanAdapters (a :: rest) = scanAdapters rest := by
        simp [scanAdapters, hm]
      have h2 : specSelect (a :: rest) = specSelect rest := by
        simp [specSelect, List.filter_cons, keepAdapter, hm]
      rw [h1, h2, ih]
    · by_cases he : a.ip_addresses.isEmpty
      · have h1 : scanAdapters (a :: rest) = scanAdapters rest := by
          simp [scanAdapters, hm, he]
        have h2 : specSelect (a :: rest) = specSelect rest := by
          simp [specSelect, List.filter_cons, keepAdapter, hm, he]
        rw [h1, h2, ih]
      · have h1 : scanAdapters (a :: rest) =
            (firstPrivateIpv4 a.ip_addresses).or (scanAdapters rest) := by
          simp only [scanAdapters, hm, if_false, he]
          cases firstPrivateIpv4 a.ip_addresses <;> simp [Option.or]
        have h2 : specSelect (a :: rest) =
            (firstPrivateIpv4 a.ip_addresses).or (specSelect rest) := by
          simp only [specSelect, List.filter_cons, keepAdapter]
          have hm' : containsMarker a.description = false := by
            cases hb : containsMarker a.description
            · rfl
            · exact absurd hb hm
          have he' : a.ip_addresses.isEmpty = false := by
            cases hb : a.ip_addresses.isEmpty
            · rfl
            · exact absurd hb he
          simp only [hm', he', Bool.not_false, Bool.and_self, if_true, List.findSome?_cons]
          cases firstPrivateIpv4 a.ip_addresses <;> simp [Option.or]
        rw [h1, h2, ih]

/-- C6.  With no explicit bind address, address selection scans adapters in
enumeration order, skips those whose description contains "Virtual", "VPN",
"Hyper-V" or "Bluetooth" (case-sensitive) or that report zero addresses, and
returns the first IPv4 address in 10.0.0.0/8, 172.16.0.0/12 or 192.168.0.0/16;
on the adapter list [{Hyper-V Switch, [10.0.0.1]}, {Ethernet, [8.8.8.8,
192.168.1.50]}] it returns "192.168.1.50". -/
theorem c6_address_scan :
    (∀ l : List Adapter, scanAdapters l = specSelect l) ∧
    (∀ socketFallback : MResult String,
      get_local_ip
        (.ok [{ description := "Hyper-V Switch", ip_addresses := [.v4 10 0 0 1] },
              { description := "Ethernet", ip_addresses := [.v4 8 8 8 8, .v4 192 168 1 50] }])
        socketFallback = .ok "192.168.1.50") := by
  refine ⟨scanAdapters_eq_specSelect, fun socketFallback => ?_⟩
  rfl

/-- C9.  An explicit bind address is returned verbatim, regardless of adapter
state: for every non-empty override string, the selected address is exactly
that string. -/
theorem c9_explicit_bind_verbatim (s : String) (adaptersResult : MResult (List Adapter))
    (socketFallback : MResult String) (h : s ≠ "") :
    resolveBindAddress (some s) adaptersResult socketFallback = .ok s := rfl

/-- C9 witness: the override "10.0.0.5" is returned exactly, with the adapter
enumeration failing outright. -/
theorem c9_witness :
    ("10.0.0.5" : String) ≠ "" ∧
    resolveBindAddress (some "10.0.0.5") (.error (.IpConfig "down")) (.error (.Io "down")) =
      .ok "10.0.0.5" :=
  ⟨by decide, c9_explicit_bind_verbatim "10.0.0.5" (.error (.IpConfig "down"))
    (.error (.Io "down")) (by decide)⟩

/-- Helper: appending `pat` to any string yields a string that ends with
`pat`. -/
theorem rustEndsWith_append_self (s pat : String) : rustEndsWith (s ++ pat) pat = true := by
  simp [rustEndsWith, String.data_append, List.suffix_append]

/-- Helper: a string ending in `pat` ends in `pat`'s last character. -/
theorem getLast_of_rustEndsWith (s pat : String) (c : Char)
    (h : rustEndsWith s pat = true) (hp : pat.data.getLast? = some c) :
    s.data.getLast? = some c := by
  simp only [rustEndsWith, decide_eq_true_eq] at h
  obtain ⟨t, ht⟩ := h
  rw [← ht, List.getLast?_append, hp]
  rfl

/-- Helper: a string ending in ".local." (last character '.') cannot also end
in ".local" (last character 'l'): the two branch guards of the hostname
normalization are mutually exclusive. -/
theorem not_endsWith_local_of_endsWith_localDot (s : String)
    (h : rustEndsWith s ".local." = true) : rustEndsWith s ".local" = false := by
  cases hb : rustEndsWith s ".local"
  · rfl
  · have g1 := getLast_of_rustEndsWith s ".local." '.' h (by decide)
    have g2 := getLast_of_rustEndsWith s ".local" 'l' hb (by decide)
    rw [g1] at g2
    exact absurd (Option.some.inj g2) (by decide)

/-- Helper: conversely, a string ending in ".local" cannot also end in
".local.". -/
theorem not_endsWith_localDot_of_endsWith_local (s : String)
    (h : rustEndsWith s ".local" = true) : rustEndsWith s ".local." = false := by
  cases hb : rustEndsWith s ".local."
  · rfl
  · have g1 := getLast_of_rustEndsWith s ".local" 'l' h (by decide)
    have g2 := getLast_of_rustEndsWith s ".local." '.' hb (by decide)
    rw [g1] at g2
    exact absurd (Option.some.inj g2) (by decide)

/-- Helper: the output of hostname normalization always ends with ".local.". -/
theorem hostname_fqdn_endsWith (s : String) :
    rustEndsWith (hostname_fqdn s) ".local." = true := by
  unfold hostname_fqdn
  by_cases h7 : rustEndsWith s ".local." = true
  · simp [h7]
  · have h7' : rustEndsWith s ".local." = false := by
      cases hb : rustEndsWith s ".local."
      · rfl
      · exact absurd hb h7
    by_cases h6 : rustEndsWith s ".local" = true
    · simp only [h7', h6, Bool.false_eq_true, if_false, if_true]
      simp only [rustEndsWith, decide_eq_true_eq] at h6 ⊢
      obtain ⟨t, ht⟩ := h6
      rw [String.data_append, ← ht, List.append_assoc]
      exact List.suffix_append t (".local".data ++ ".".data)
    · have h6' : rustEndsWith s ".local" = false := by
        cases hb : rustEndsWith s ".local"
        · rfl
        · exact absurd hb h6
      simp only [h7', h6', Bool.false_eq_true, if_false]
      exact rustEndsWith_append_self s ".local."

/-- C8.  Hostname normalization maps "host", "host.local" and "host.local."
all to "host.local."; in general an input already ending with ".local." is
returned unchanged, an input ending with ".local" gets a trailing dot, and any
other input gets ".local." appended; normalization is idempotent and its
output always ends with ".local.". -/
theorem c8_hostname_normalization :
    (hostname_fqdn "host" = "host.local." ∧ hostname_fqdn "host.local" = "host.local." ∧
     hostname_fqdn "host.local." = "host.local.") ∧
    (∀ s, rustEndsWith s ".local." = true → hostname_fqdn s = s) ∧
    (∀ s, rustEndsWith s ".local" = true → hostname_fqdn s = s ++ ".") ∧
    (∀ s, rustEndsWith s ".local." = false → rustEndsWith s ".local" = false →
      hostname_fqdn s = s ++ ".local.") ∧
    (∀ s, hostname_fqdn (hostname_fqdn s) = hostname_fqdn s) ∧
    (∀ s, rustEndsWith (hostname_fqdn s) ".local." = true) := by
  have b1 : ∀ s, rustEndsWith s ".local." = true → hostname_fqdn s = s := by
    intro s h; simp [hostname_fqdn, h]
  refine ⟨⟨by rfl, by rfl, by rfl⟩, b1, ?_, ?_, ?_, hostname_fqdn_endsWith⟩
  · intro s h
    have h7 := not_endsWith_localDot_of_endsWith_local s h
    simp [hostname_fqdn, h7, h]
  · intro s h7 h6
    simp [hostname_fqdn, h7, h6]
  · intro s
    exact b1 (hostname_fqdn s) (hostname_fqdn_endsWith s)

/-- C8 witness: the general ".local"-suffix branch applied at the concrete
input "host2.local". -/
theorem c8_witness : hostname_fqdn "host2.local" = "host2.local" ++ "." :=
  c8_hostname_normalization.2.2.1 "host2.local" (by decide)

/-- Helper: the per-share loop of `validate` depends only on each share's
name and path, never on its comment. -/
theorem checkShares_congr :
    ∀ (i : Nat) (l l' : List ShareConfig),
      l'.map (fun s => (s.name, s.path)) = l.map (fun s => (s.name, s.path)) →
      checkShares i l' = checkShares i l := by
  intro i l
  induction l generalizing i with
  | nil =>
    intro l' h
    simp only [List.map_nil, List.map_eq_nil_iff] at h
    rw [h]
  | cons s rest ih =>
    intro l' h
    cases l' with
    | nil => simp at h
    | cons s' rest' =>
      simp only [List.map_cons, List.cons.injEq, Prod.mk.injEq] at h
      obtain ⟨⟨hn, hp⟩, hrest⟩ := h
      simp only [checkShares, hn, hp]
      rw [ih (i + 1) rest' hrest]

/-- C10.  Validation never inspects the workgroup, description, bind-address
or share-comment fields: two configurations agreeing on service name, instance
name, port, hostname, and on every share's name and path, validate to the same
outcome. -/
theorem c10_validate_ignores_metadata (c c' : ServiceConfig)
    (h1 : c'.service_name = c.service_name) (h2 : c'.instance_name = c.instance_name)
    (h3 : c'.port = c.port) (h4 : c'.hostname = c.hostname)
    (h5 : c'.shares.map (fun s => (s.name, s.path)) = c.shares.map (fun s => (s.name, s.path))) :
    c'.validate = c.validate := by
  have he : (c'.shares = []) ↔ (c.shares = []) := by
    constructor <;> intro hh
    · have h' := h5
      rw [hh] at h'
      simp only [List.map_nil] at h'
      exact List.map_eq_nil_iff.mp h'.symm
    · have h' := h5
      rw [hh] at h'
      simp only [List.map_nil] at h'
      exact List.map_eq_nil_iff.mp h'
  unfold ServiceConfig.validate
  rw [h1, h2, h3, h4, checkShares_congr 0 c.shares c'.shares h5]
  simp only [he]

/-- C10 witness: two concrete configurations differing only in workgroup,
description, bind address and share comment validate identically (both
successfully). -/
theorem c10_witness :
    ServiceConfig.validate
        { service_name := "_smb._tcp.local.", instance_name := "Share", port := 445,
          hostname := "host-a", workgroup := "WG", description := "first",
          shares := [{ name := "Public", path := "C:/Pub", comment := "x" }],
          bind_address := none } =
      ServiceConfig.validate
        { service_name := "_smb._tcp.local.", instance_name := "Share", port := 445,
          hostname := "host-a", workgroup := "", description := "",
          shares := [{ name := "Public", path := "C:/Pub", comment := "" }],
          bind_address := some "10.0.0.9" } :=
  (c10_validate_ignores_metadata _ _ rfl rfl rfl rfl (by rfl)).symm

/-- A fully valid configuration used as a concrete instance in witnesses
(hostname without a dot, so it passes the hostname rule). -/
def sampleConfig : ServiceConfig :=
  { service_name := "_smb._tcp.local.", instance_name := "Share", port := 445,
    hostname := "windows-pc", workgroup := "WORKGROUP", description := "d",
    shares := [{ name := "Public", path := "C:/Pub", comment := "c" }],
    bind_address := none }

/-- An explicitly-provided override that fails validation rule 3
(`port == 0`). -/
def invalidOverride : ServiceConfig :=
  { service_name := "_smb._tcp.local.", instance_name := "X", port := 0,
    hostname := "h", workgroup := "", description := "",
    shares := [{ name := "a", path := "b", comment := "" }],
    bind_address := some "10.0.0.5" }

/-- Helper: every configuration `from_file` returns has passed `validate`. -/
theorem from_file_valid (j : Jval) (c : ServiceConfig) (h : from_file j = .ok c) :
    c.validate = .ok () := by
  unfold from_file at h
  rcases hd : deserializeConfig j with e | config
  · rw [hd] at h; simp at h
  · rw [hd] at h
    simp only at h
    rcases hv : config.validate with e | u
    · rw [hv] at h; simp at h
    · rw [hv] at h
      simp only at h
      cases u
      rw [← Except.ok.inj h]
      exact hv

/-- C1.  The code evaluated at the failing input: the built-in `default()`
template does *not* pass `validate` — its hostname "windows-pc.local"
contains '.', which the hostname rule rejects — yet on load failure `run`
substitutes it and proceeds all the way to registration with that invalid
default.  (The code itself relies on the default being valid: the service
installer persists it through `save_to_file`, which validates first and hence
always fails here.) -/
theorem c1_default_config_invalid_but_registered :
    ServiceConfig.default.validate =
      .error (.ConfigValidation "hostname must contain only alphanumeric characters and hyphens") ∧
    runToRegistration none (.error (.Io "No such file or directory")) (.ok [])
        (.ok "10.0.0.7") =
      .ok (ServiceConfig.default, "10.0.0.7", "windows-pc.local.") :=
  ⟨rfl, rfl⟩

/-- A configuration that reaches registration via the load-from-file path
satisfies all validation rules; but when loading fails, the substituted
`default()` does not itself pass `validate` (its hostname contains '.'), and
`run` still registers with it unvalidated. -/
theorem loaded_config_validity :
    (∀ (j : Jval) (c : ServiceConfig), from_file j = .ok c → c.validate = .ok ()) ∧
    ServiceConfig.default.validate =
      .error (.ConfigValidation "hostname must contain only alphanumeric characters and hyphens") ∧
    (∀ e : MdnsError, resolveConfig none (.error e) = .ok ServiceConfig.default) :=
  ⟨from_file_valid, rfl, fun _ => rfl⟩

/-- The load-path guarantee applied at a concrete persisted file (the
serialization of `sampleConfig`), and the default-substitution equation at a
concrete load error. -/
theorem loaded_config_validity_witness :
    sampleConfig.validate = .ok () ∧
    resolveConfig none (.error (.Io "No such file or directory")) = .ok ServiceConfig.default :=
  ⟨loaded_config_validity.1 sampleConfig.toJson sampleConfig (by rfl),
   loaded_config_validity.2.2 (.Io "No such file or directory")⟩

/-- C3 counterexample.  An explicitly-provided override failing a validation
rule (`port == 0`) is *not* surfaced as an error: `run` uses it verbatim and
proceeds to registration. -/
theorem c3_counterexample :
    invalidOverride.validate = .error (.ConfigValidation "port cannot be 0") ∧
    runToRegistration (some invalidOverride) (.ok ServiceConfig.default)
        (.error (.IpConfig "query failed")) (.error (.Io "socket failed")) =
      .ok (invalidOverride, "10.0.0.5", "h.local.") :=
  ⟨rfl, rfl⟩

/-- C3 (amended).  `run` uses an explicitly-provided override without
validating it (any override, valid or not, is accepted into the run), whereas
`save_to_file` on an invalid model does return the validation error to the
caller. -/
theorem c3_override_unchecked_save_surfaces :
    (∀ (c : ServiceConfig) (loadResult : MResult ServiceConfig),
      resolveConfig (some c) loadResult = .ok c) ∧
    (∀ (c : ServiceConfig) (e : MdnsError), c.validate = .error e →
      save_to_file c = .error e) := by
  refine ⟨fun c loadResult => rfl, fun c e h => ?_⟩
  unfold save_to_file
  rw [h]

/-- C3 witness: the override-acceptance equation and the save-surfacing
implication, both at the concrete `port == 0` override. -/
theorem c3_witness :
    resolveConfig (some invalidOverride) (.ok ServiceConfig.default) = .ok invalidOverride ∧
    save_to_file invalidOverride = .error (.ConfigValidation "port cannot be 0") :=
  ⟨c3_override_unchecked_save_surfaces.1 invalidOverride (.ok ServiceConfig.default),
   c3_override_unchecked_save_surfaces.2 invalidOverride
     (.ConfigValidation "port cannot be 0") (by rfl)⟩

/-- The field names of the `ServiceConfig` schema, in declaration order. -/
def configFieldNames : List String :=
  ["service_name", "instance_name", "port", "hostname", "workgroup", "description",
   "shares", "bind_address"]

/-- The JSON object entries of `sampleConfig` with the optional
`bind_address` field absent. -/
def sampleEntries : List (String × Jval) :=
  [("service_name", .str "_smb._tcp.local."), ("instance_name", .str "Share"),
   ("port", .num 445), ("hostname", .str "windows-pc"),
   ("workgroup", .str "WORKGROUP"), ("description", .str "d"),
   ("shares", .arr [.obj [("name", .str "Public"), ("path", .str "C:/Pub"),
                          ("comment", .str "c")]])]

/-- Helper: the deserializer skips an entry whose key is not a schema field
name (the struct has no `deny_unknown_fields` attribute). -/
theorem readConfigEntries_unknown_head (k : String) (v : Jval)
    (entries : List (String × Jval)) (st : ConfigSlots) (h : k ∉ configFieldNames) :
    readConfigEntries ((k, v) :: entries) st = readConfigEntries entries st := by
  simp only [configFieldNames, List.mem_cons, List.not_mem_nil, or_false, not_or] at h
  obtain ⟨h1, h2, h3, h4, h5, h6, h7, h8⟩ := h
  simp only [readConfigEntries, if_neg h1, if_neg h2, if_neg h3, if_neg h4, if_neg h5,
    if_neg h6, if_neg h7, if_neg h8]

/-- Helper: with no `"port"` key among the entries, the port slot stays
unfilled through the map-visiting phase. -/
theorem readConfigEntries_port_slot :
    ∀ (entries : List (String × Jval)) (st st' : ConfigSlots),
      (∀ p ∈ entries, p.1 ≠ "port") → st.port = none →
      readConfigEntries entries st = .ok st' → st'.port = none := by
  intro entries
  induction entries with
  | nil =>
    intro st st' _ hp hr
    simp only [readConfigEntries] at hr
    rw [← Except.ok.inj hr]
    exact hp
  | cons p rest ih =>
    intro st st' h hp hr
    obtain ⟨k, v⟩ := p
    have hk : k ≠ "port" := h (k, v) (List.mem_cons_self _ _)
    have hrest : ∀ q ∈ rest, q.1 ≠ "port" := fun q hq => h q (List.mem_cons_of_mem _ hq)
    simp only [readConfigEntries] at hr
    -- `split_ifs` resolves the `k = "port"` branch using `hk`, so seven
    -- conditions remain: the other seven schema fields; then the else path.
    split_ifs at hr with f1 f2 f3 f4 f5 f6 f7
    · rcases hs : st.service_name with _ | s0
      · rw [hs] at hr
        rcases ha : asString v with e | s1
        · rw [ha] at hr; exact absurd hr (by simp)
        · rw [ha] at hr
          exact ih _ st' hrest (by simpa using hp) hr
      · rw [hs] at hr; exact absurd hr (by simp)
    · rcases hs : st.instance_name with _ | s0
      · rw [hs] at hr
        rcases ha : asString v with e | s1
        · rw [ha] at hr; exact absurd hr (by simp)
        · rw [ha] at hr
          exact ih _ st' hrest (by simpa using hp) hr
      · rw [hs] at hr; exact absurd hr (by simp)
    · rcases hs : st.hostname with _ | s0
      · rw [hs] at hr
        rcases ha : asString v with e | s1
        · rw [ha] at hr; exact absurd hr (by simp)
        · rw [ha] at hr
          exact ih _ st' hrest (by simpa using hp) hr
      · rw [hs] at hr; exact absurd hr (by simp)
    · rcases hs : st.workgroup with _ | s0
      · rw [hs] at hr
        rcases ha : asString v with e | s1
        · rw [ha] at hr; exact absurd hr (by simp)
        · rw [ha] at hr
          exact ih _ st' hrest (by simpa using hp) hr
      · rw [hs] at hr; exact absurd hr (by simp)
    · rcases hs : st.description with _ | s0
      · rw [hs] at hr
        rcases ha : asString v with e | s1
        · rw [ha] at hr; exact absurd hr (by simp)
        · rw [ha] at hr
          exact ih _ st' hrest (by simpa using hp) hr
      · rw [hs] at hr; exact absurd hr (by simp)
    · rcases hs : st.shares with _ | l0
      · rw [hs] at hr
        rcases ha : asShares v with e | l1
        · rw [ha] at hr; exact absurd hr (by simp)
        · rw [ha] at hr
          exact ih _ st' hrest (by simpa using hp) hr
      · rw [hs] at hr; exact absurd hr (by simp)
    · rcases hs : st.bind_address with _ | b0
      · rw [hs] at hr
        rcases ha : asOptString v with e | b1
        · rw [ha] at hr; exact absurd hr (by simp)
        · rw [ha] at hr
          exact ih _ st' hrest (by simpa using hp) hr
      · rw [hs] at hr; exact absurd hr (by simp)
    · exact ih _ st' hrest hp hr

/-- Helper: the finishing phase cannot produce a configuration when the
(required) port slot is unfilled. -/
theorem finalizeConfig_port_none (st : ConfigSlots) (hp : st.port = none)
    (cfg : ServiceConfig) : finalizeConfig st ≠ .ok cfg := by
  intro hc
  unfold finalizeConfig at hc
  rcases hsn : st.service_name with _ | sn
  · rw [hsn] at hc; exact absurd hc (by simp)
  · rw [hsn] at hc
    rcases hin : st.instance_name with _ | inm
    · rw [hin] at hc; exact absurd hc (by simp)
    · rw [hin] at hc
      rw [hp] at hc
      exact absurd hc (by simp)

/-- Helper: a JSON object with no `"port"` entry never deserializes to a
configuration. -/
theorem deserializeConfig_missing_port (entries : List (String × Jval))
    (h : ∀ p ∈ entries, p.1 ≠ "port") (cfg : ServiceConfig) :
    deserializeConfig (.obj entries) ≠ .ok cfg := by
  intro hc
  simp only [deserializeConfig] at hc
  rcases hre : readConfigEntries entries {} with e | st
  · rw [hre] at hc; exact absurd hc (by simp)
  · rw [hre] at hc
    simp only at hc
    exact finalizeConfig_port_none st
      (readConfigEntries_port_slot entries {} st h rfl hre) cfg hc

/-- C4 counterexample.  A persisted file containing an unknown field is *not*
a load error: the derived deserializer has no `deny_unknown_fields` attribute,
so serde's default applies and the extra entry is silently ignored — the load
succeeds. -/
theorem c4_counterexample :
    from_file (.obj (sampleEntries ++ [("color", .str "blue")])) = .ok sampleConfig := by
  rfl

/-- C4 (amended).  The loader ignores unknown fields (in general: an entry
whose key is outside the schema does not affect deserialization); a file
missing the required port field fails with a structured-parse error (in
general: no entry list without a `"port"` key deserializes successfully); and
a file omitting only the optional bind-address field loads successfully with
bind address `None` (auto-detect). -/
theorem c4_schema_strictness_amended :
    (∀ (k : String) (v : Jval) (entries : List (String × Jval)), k ∉ configFieldNames →
      deserializeConfig (.obj ((k, v) :: entries)) = deserializeConfig (.obj entries)) ∧
    (∀ (entries : List (String × Jval)), (∀ p ∈ entries, p.1 ≠ "port") →
      ∀ cfg : ServiceConfig, deserializeConfig (.obj entries) ≠ .ok cfg) ∧
    from_file (.obj [("service_name", .str "_smb._tcp.local."),
                     ("instance_name", .str "Share"), ("hostname", .str "windows-pc"),
                     ("workgroup", .str "WORKGROUP"), ("description", .str "d"),
                     ("shares", .arr [.obj [("name", .str "Public"),
                                            ("path", .str "C:/Pub"),
                                            ("comment", .str "c")]])]) =
      .error (.Json "missing field port") ∧
    from_file (.obj sampleEntries) = .ok sampleConfig ∧
    sampleConfig.bind_address = none := by
  refine ⟨?_, ?_, by rfl, by rfl, by rfl⟩
  · intro k v entries h
    simp only [deserializeConfig]
    rw [readConfigEntries_unknown_head k v entries {} h]
  · intro entries h cfg
    exact deserializeConfig_missing_port entries h cfg

/-- C4 witness: the unknown-field equation at the concrete key "color", and
the missing-port impossibility at the concrete empty entry list. -/
theorem c4_witness :
    deserializeConfig (.obj [("color", .str "blue")]) = deserializeConfig (.obj []) ∧
    deserializeConfig (.obj []) ≠ .ok sampleConfig :=
  ⟨c4_schema_strictness_amended.1 "color" (.str "blue") [] (by decide),
   c4_schema_strictness_amended.2.1 [] (by simp) sampleConfig⟩

/-- Helper: deserializing the serialization of a share yields the share
back. -/
theorem shareFromJson_toJson (s : ShareConfig) : shareFromJson s.toJson = .ok s := by
  simp [ShareConfig.toJson, shareFromJson, readShareEntries, asString]

/-- Helper: elementwise round trip for the share vector. -/
theorem sharesFromJsonList_map (l : List ShareConfig) :
    sharesFromJsonList (l.map ShareConfig.toJson) = .ok l := by
  induction l with
  | nil => rfl
  | cons s rest ih => simp [sharesFromJsonList, shareFromJson_toJson, ih]

/-- Helper: deserializing the serialization of a configuration yields the
configuration back (the port is a `u16`, hence `≤ 65535`). -/
theorem deserializeConfig_toJson (c : ServiceConfig) (hport : c.port ≤ 65535) :
    deserializeConfig c.toJson = .ok c := by
  rcases hb : c.bind_address with _ | b
  · simp [ServiceConfig.toJson, hb, deserializeConfig, readConfigEntries, asString, asU16,
      asShares, sharesFromJsonList_map, finalizeConfig, hport]
    rw [← hb]
  · simp [ServiceConfig.toJson, hb, deserializeConfig, readConfigEntries, asString, asU16,
      asShares, asOptString, sharesFromJsonList_map, finalizeConfig, hport]
    rw [← hb]

/-- C7.  For every configuration passing validation, saving and re-loading
returns a configuration equal to the original in every field: `save_to_file`
writes exactly the serialization, and `from_file` on that serialization
returns the original value (the absent bind-address entry deserializes back to
`None`). -/
theorem c7_save_load_roundtrip (c : ServiceConfig) (hport : c.port < 65536)
    (hv : c.validate = .ok ()) :
    save_to_file c = .ok c.toJson ∧ from_file c.toJson = .ok c := by
  have hd := deserializeConfig_toJson c (by omega)
  constructor
  · unfold save_to_file
    rw [hv]
  · unfold from_file
    rw [hd]
    simp [hv]

/-- C7 witness: the round trip at the concrete valid configuration
`sampleConfig`, whose bind address is `None`. -/
theorem c7_witness :
    save_to_file sampleConfig = .ok sampleConfig.toJson ∧
    from_file sampleConfig.toJson = .ok sampleConfig :=
  c7_save_load_roundtrip sampleConfig (by decide) (by rfl)

/-! Section: C2: characterization of `validate` -/

/-- Amended rule 1: the service identifier ends with ".local.". -/
def ruleServiceName (c : ServiceConfig) : Bool := rustEndsWith c.service_name ".local."

/-- Amended rule 2: instance name non-empty and at most 63 *UTF-8 bytes*
(Rust `len()` counts bytes, not characters). -/
def ruleInstanceName (c : ServiceConfig) : Bool :=
  decide (c.instance_name ≠ "") && decide (rustLen c.instance_name ≤ 63)

/-- Rule 3: nonzero port. -/
def rulePort (c : ServiceConfig) : Bool := decide (c.port ≠ 0)

/-- Rule 4: non-empty hostname. -/
def ruleHostnameNonempty (c : ServiceConfig) : Bool := decide (c.hostname ≠ "")

/-- Amended rule 5: every hostname character is *Unicode*-alphanumeric or '-'
(Rust `char::is_alphanumeric`, not the ASCII class `[A-Za-z0-9]`), and the
hostname is not hyphen-bounded. -/
def ruleHostnameChars (c : ServiceConfig) : Bool :=
  c.hostname.data.all (fun ch => rustIsAlphanumeric ch || ch = '-') &&
  !rustStartsWithChar c.hostname '-' && !rustEndsWithChar c.hostname '-'

/-- Rule 6: at least one share. -/
def ruleSharesNonempty (c : ServiceConfig) : Bool := decide (c.shares ≠ [])

/-- Rule 7: every share's name and path non-empty. -/
def ruleShareEntries (c : ServiceConfig) : Bool :=
  c.shares.all (fun s => decide (s.name ≠ "") && decide (s.path ≠ ""))

/-- The first rule-7 violation in share order, with the share index in the
reported message. -/
def firstBadShare : Nat → List ShareConfig → Option String
  | _, [] => none
  | i, s :: rest =>
    if s.name = "" then some ("share[" ++ Nat.repr i ++ "]: name cannot be empty")
    else if s.path = "" then some ("share[" ++ Nat.repr i ++ "]: path cannot be empty")
    else firstBadShare (i + 1) rest

/-- Validation as the (amended) claim describes it: evaluate the rules in
field-declaration order, report the first failure, with the share index for
rule 7. -/
def claimValidate (c : ServiceConfig) : MResult Unit :=
  if ¬ ruleServiceName c then
    .error (.ConfigValidation "service_name must end with '.local.'")
  else if ¬ ruleInstanceName c then
    .error (.ConfigValidation (if c.instance_name = "" then "instance_name cannot be empty"
                               else "instance_name exceeds 63 characters"))
  else if ¬ rulePort c then .error (.ConfigValidation "port cannot be 0")
  else if ¬ ruleHostnameNonempty c then .error (.ConfigValidation "hostname cannot be empty")
  else if ¬ ruleHostnameChars c then
    .error (.ConfigValidation "hostname must contain only alphanumeric characters and hyphens")
  else if ¬ ruleSharesNonempty c then
    .error (.ConfigValidation "at least one share must be configured")
  else
    match firstBadShare 0 c.shares with
    | some msg => .error (.ConfigValidation msg)
    | none => .ok ()

/-- Helper: the share loop of `validate` reports exactly the first bad share
found by `firstBadShare`. -/
theorem checkShares_eq_firstBadShare (i : Nat) (l : List ShareConfig) :
    checkShares i l =
      (match firstBadShare i l with
       | some msg => .error (.ConfigValidation msg)
       | none => .ok ()) := by
  induction l generalizing i with
  | nil => rfl
  | cons s rest ih =>
    by_cases hn : s.name = ""
    · simp [checkShares, firstBadShare, hn]
    · by_cases hp : s.path = ""
      · simp [checkShares, firstBadShare, hn, hp]
      · simp [checkShares, firstBadShare, hn, hp, ih]

/-- Helper: `firstBadShare` finds nothing exactly when every share has a
non-empty name and path. -/
theorem firstBadShare_none_iff (i : Nat) (l : List ShareConfig) :
    firstBadShare i l = none ↔
      l.all (fun s => decide (s.name ≠ "") && decide (s.path ≠ "")) = true := by
  induction l generalizing i with
  | nil => simp [firstBadShare]
  | cons s rest ih =>
    by_cases hn : s.name = ""
    · simp [firstBadShare, hn]
    · by_cases hp : s.path = ""
      · simp [firstBadShare, hn, hp]
      · simp [firstBadShare, hn, hp, ih]

/-- Helper: `validate` computes exactly the claim-shaped first-failure
check over the amended rules. -/
theorem validate_eq_claimValidate (c : ServiceConfig) : c.validate = claimValidate c := by
  unfold ServiceConfig.validate claimValidate ruleServiceName ruleInstanceName rulePort
    ruleHostnameNonempty ruleHostnameChars ruleSharesNonempty
  rw [checkShares_eq_firstBadShare]
  by_cases h1 : rustEndsWith c.service_name ".local." = true
  case neg => simp [h1]
  simp only [h1, Bool.not_true, not_true_eq_false, if_false, decide_not, if_neg]
  by_cases h2 : c.instance_name = ""
  · simp [h1, h2]
  by_cases h3 : rustLen c.instance_name ≤ 63
  case neg =>
    have h3' : rustLen c.instance_name > 63 := by omega
    simp [h1, h2, h3, h3']
  have h3' : ¬ (rustLen c.instance_name > 63) := by omega
  by_cases h4 : c.port = 0
  · simp [h1, h2, h3, h3', h4]
  by_cases h5 : c.hostname = ""
  · simp [h1, h2, h3, h3', h4, h5]
  by_cases h6a : c.hostname.data.all (fun ch => rustIsAlphanumeric ch || ch = '-') = true
  case neg =>
    have h6a' : c.hostname.data.all (fun ch => rustIsAlphanumeric ch || ch = '-') = false := by
      cases hb : c.hostname.data.all (fun ch => rustIsAlphanumeric ch || ch = '-')
      · rfl
      · exact absurd hb h6a
    simp [h1, h2, h3, h3', h4, h5, h6a']
  by_cases h6b : rustStartsWithChar c.hostname '-' = true
  · simp [h1, h2, h3, h3', h4, h5, h6a, h6b]
  have h6b' : rustStartsWithChar c.hostname '-' = false := by
    cases hb : rustStartsWithChar c.hostname '-'
    · rfl
    · exact absurd hb h6b
  by_cases h6c : rustEndsWithChar c.hostname '-' = true
  · simp [h1, h2, h3, h3', h4, h5, h6a, h6b', h6c]
  have h6c' : rustEndsWithChar c.hostname '-' = false := by
    cases hb : rustEndsWithChar c.hostname '-'
    · rfl
    · exact absurd hb h6c
  by_cases h7 : c.shares = []
  · simp [h1, h2, h3, h3', h4, h5, h6a, h6b', h6c', h7]
  · simp [h1, h2, h3, h3', h4, h5, h6a, h6b', h6c', h7]

/-- C2 counterexample.  The claim's rule wording fails on the code in two
places.  (a) "hostname matches `[A-Za-z0-9-]+`": the code uses Rust's
Unicode `char::is_alphanumeric`, so the hostname "héllo" — rejected by the
claimed ASCII regex — passes `validate`.  (b) "instance name at most 63
characters": the code bounds the *byte* length, so a 32-character
instance name of 'é' (64 UTF-8 bytes) is rejected by `validate` although the
claimed character-count rule accepts it. -/
theorem c2_counterexample :
    (ServiceConfig.validate
        { service_name := "_smb._tcp.local.", instance_name := "X", port := 445,
          hostname := "héllo", workgroup := "", description := "",
          shares := [{ name := "a", path := "b", comment := "" }],
          bind_address := none } = .ok () ∧
     claimedHostnameRule "héllo" = false) ∧
    (ServiceConfig.validate
        { service_name := "_smb._tcp.local.",
          instance_name := String.mk (List.replicate 32 'é'), port := 445,
          hostname := "host", workgroup := "", description := "",
          shares := [{ name := "a", path := "b", comment := "" }],
          bind_address := none } =
        .error (.ConfigValidation "instance_name exceeds 63 characters") ∧
     claimedInstanceNameRule (String.mk (List.replicate 32 'é')) = true) := by
  refine ⟨⟨by rfl, by rfl⟩, ⟨?_, by rfl⟩⟩
  rfl

/-- C2 (amended).  `validate` succeeds exactly when the seven rules hold with
rule 2 reading "at most 63 UTF-8 bytes" and rule 5 reading "every character
Unicode-alphanumeric or '-', not hyphen-bounded"; and on failure it reports
the first failing rule in field-declaration order, with the share index for
rule 7 (`claimValidate` is that first-failure evaluation). -/
theorem c2_validate_characterization :
    (∀ c : ServiceConfig, c.validate = claimValidate c) ∧
    (∀ c : ServiceConfig,
      c.validate = .ok () ↔
        (ruleServiceName c && ruleInstanceName c && rulePort c && ruleHostnameNonempty c &&
         ruleHostnameChars c && ruleSharesNonempty c && ruleShareEntries c) = true) := by
  refine ⟨validate_eq_claimValidate, fun c => ?_⟩
  rw [validate_eq_claimValidate]
  unfold claimValidate
  by_cases h1 : ruleServiceName c = true
  case neg =>
    have h1' : ruleServiceName c = false := by
      cases hb : ruleServiceName c
      · rfl
      · exact absurd hb h1
    simp [h1']
  by_cases h2 : ruleInstanceName c = true
  case neg =>
    have h2' : ruleInstanceName c = false := by
      cases hb : ruleInstanceName c
      · rfl
      · exact absurd hb h2
    simp [h1, h2']
  by_cases h3 : rulePort c = true
  case neg =>
    have h3' : rulePort c = false := by
      cases hb : rulePort c
      · rfl
      · exact absurd hb h3
    simp [h1, h2, h3']
  by_cases h4 : ruleHostnameNonempty c = true
  case neg =>
    have h4' : ruleHostnameNonempty c = false := by
      cases hb : ruleHostnameNonempty c
      · rfl
      · exact absurd hb h4
    simp [h1, h2, h3, h4']
  by_cases h5 : ruleHostnameChars c = true
  case neg =>
    have h5' : ruleHostnameChars c = false := by
      cases hb : ruleHostnameChars c
      · rfl
      · exact absurd hb h5
    simp [h1, h2, h3, h4, h5']
  by_cases h6 : ruleSharesNonempty c = true
  case neg =>
    have h6' : ruleSharesNonempty c = false := by
      cases hb : ruleSharesNonempty c
      · rfl
      · exact absurd hb h6
    simp [h1, h2, h3, h4, h5, h6']
  simp only [h1, h2, h3, h4, h5, h6, not_true_eq_false, if_false, Bool.true_and]
  rcases hf : firstBadShare 0 c.shares with _ | msg
  · have hgood := (firstBadShare_none_iff 0 c.shares).mp hf
    simp [ruleShareEntries, hgood]
    simpa using hgood
  · have hall : ¬ (c.shares.all (fun s => decide (s.name ≠ "") && decide (s.path ≠ "")) = true) := by
      intro hall
      rw [← firstBadShare_none_iff 0 c.shares] at hall
      rw [hf] at hall
      exact Option.some_ne_none msg hall
    simp [ruleShareEntries, hall]
    simpa using hall

/-- C2 witness: the characterization evaluated at a concrete configuration
(the invalid `port == 0` override). -/
theorem c2_witness : invalidOverride.validate = claimValidate invalidOverride :=
  c2_validate_characterization.1 invalidOverride

/-- C6 witness: the skip-and-first-private scan at the concrete two-adapter
list of the claim, with a concrete socket fallback. -/
theorem c6_witness :
    get_local_ip
      (.ok [{ description := "Hyper-V Switch", ip_addresses := [.v4 10 0 0 1] },
            { description := "Ethernet", ip_addresses := [.v4 8 8 8 8, .v4 192 168 1 50] }])
      (.ok "172.16.0.2") = .ok "192.168.1.50" :=
  c6_address_scan.2 (.ok "172.16.0.2")

end MdnsResponder
